import Mathlib

/-!
Shallow embedding of the VCPU16 core from `src/vcpu/cpu.rs` (a DCPU-16
style 16-bit virtual machine).  Machine words are modelled as `Nat`;
every `u16` arithmetic operation of the source is rendered with an
explicit `% 65536`, i.e. the two's-complement wrapping semantics of the
emulated CPU (`x - 1` on `u16` becomes `(x + 65535) % 65536`).  Memory
and the register file are total functions, mirroring the source arrays
`memory: [u16; 65536]` and `registers: [u16; 12]`; indexing by a `u16`
value is rendered as indexing at `a % 65536`.  All decode functions are
translated arm by arm from the source, including the arms whose body
deviates from the accompanying source comments.
-/

/-- Register indices, mirroring `enum Register` in the source
(`A = 0x0` through `IA = 0xB`). -/
inductive Register
  | A | B | C | X | Y | Z | I | J | PC | SP | EX | IA
deriving DecidableEq, Repr

/-- `Register as usize` of the source. -/
def Register.idx : Register → Nat
  | .A => 0x0
  | .B => 0x1
  | .C => 0x2
  | .X => 0x3
  | .Y => 0x4
  | .Z => 0x5
  | .I => 0x6
  | .J => 0x7
  | .PC => 0x8
  | .SP => 0x9
  | .EX => 0xA
  | .IA => 0xB

/-- Decoded operand, mirroring `enum Value` in the source: a register
reference, a memory reference, or a literal, each carrying the value
snapshot captured at decode time. -/
inductive Value
  | register (register : Register) (value : Nat)
  | memory (address : Nat) (value : Nat)
  | literal (value : Nat)
  | none
deriving DecidableEq, Repr

/-- Decoded instruction, mirroring `enum Instruction` in the source. -/
inductive Instruction
  | ERR
  | NOP
  | HIB
  | JSR (left : Value)
  | SLP (left : Value)
  | INT (left : Value)
  | IAG (left : Value)
  | IAS (left : Value)
  | RFI (left : Value)
  | IAQ (left : Value)
  | HWN (left : Value)
  | HWQ (left : Value)
  | HWI (left : Value)
  | SET (left : Value) (right : Value)
  | ADD (left : Value) (right : Value)
  | SUB (left : Value) (right : Value)
  | MUL (left : Value) (right : Value)
  | MLI (left : Value) (right : Value)
  | DIV (left : Value) (right : Value)
  | DVI (left : Value) (right : Value)
  | MOD (left : Value) (right : Value)
  | MDI (left : Value) (right : Value)
  | AND (left : Value) (right : Value)
  | BOR (left : Value) (right : Value)
  | XOR (left : Value) (right : Value)
  | SHR (left : Value) (right : Value)
  | ASR (left : Value) (right : Value)
  | SHL (left : Value) (right : Value)
  | IFB (left : Value) (right : Value)
  | IFC (left : Value) (right : Value)
  | IFE (left : Value) (right : Value)
  | IFN (left : Value) (right : Value)
  | IFG (left : Value) (right : Value)
  | IFA (left : Value) (right : Value)
  | IFL (left : Value) (right : Value)
  | IFU (left : Value) (right : Value)
  | ADX (left : Value) (right : Value)
  | SBX (left : Value) (right : Value)
  | STI (left : Value) (right : Value)
  | STD (left : Value) (right : Value)
deriving DecidableEq, Repr

/-- Operating states, mirroring `enum State` in the source. -/
inductive State
  | idle
  | busy (time : Nat) (instruction : Instruction)
  | sleeping (time : Nat)
  | hibernating
  | halted
deriving DecidableEq, Repr

/-- The machine, mirroring `struct VCPU16`. -/
structure VCPU16 where
  registers : Nat → Nat
  memory : Nat → Nat
  state : State

/-- `VCPU16::new()`: zeroed registers and memory, `Idle` state. -/
def VCPU16.new : VCPU16 :=
  { registers := fun _ => 0, memory := fun _ => 0, state := State.idle }

/-- `self.memory[address as usize]` for a `u16` address value. -/
def VCPU16.get_memory (s : VCPU16) (address : Nat) : Nat :=
  s.memory (address % 65536)

/-- `self.memory[address as usize] = value`. -/
def VCPU16.set_memory (s : VCPU16) (address value : Nat) : VCPU16 :=
  { s with memory := fun a => if a = address % 65536 then value else s.memory a }

/-- `self.registers[i] = value`. -/
def VCPU16.set_register (s : VCPU16) (i value : Nat) : VCPU16 :=
  { s with registers := fun j => if j = i then value else s.registers j }

/-- `struct Decoded<T> { result, time }` of the source. -/
structure Decoded (T : Type) where
  result : T
  time : Nat
deriving Repr

/-- `(instruction_word & 0xFC00) >> 10`: the 6-bit a-operand field. -/
def fieldA (w : Nat) : Nat := w / 1024 % 64

/-- `(instruction_word & 0x03E0) >> 5`: the 5-bit b-operand field. -/
def fieldB (w : Nat) : Nat := w / 32 % 32

/-- `instruction_word & 0x001F`: the 5-bit opcode field. -/
def opcodeField (w : Nat) : Nat := w % 32

/-- `VCPU16::decode_left`: decode the 6-bit left (a) operand field,
arm by arm from the source.  Note the source's `0x09` arm reads
`registers[Register::A]` (its comment says `[B]`), and the `0x1F` arm
evaluates `self.registers[Register::PC]` as a bare expression without
incrementing it. -/
def VCPU16.decode_left (s : VCPU16) (instruction_word : Nat) :
    Decoded Value × VCPU16 :=
  let c := fieldA instruction_word
  if c = 0x00 then -- A
    (⟨Value.register Register.A (s.registers Register.A.idx), 0⟩, s)
  else if c = 0x01 then -- B
    (⟨Value.register Register.B (s.registers Register.B.idx), 0⟩, s)
  else if c = 0x02 then -- C
    (⟨Value.register Register.C (s.registers Register.C.idx), 0⟩, s)
  else if c = 0x03 then -- X
    (⟨Value.register Register.X (s.registers Register.X.idx), 0⟩, s)
  else if c = 0x04 then -- Y
    (⟨Value.register Register.Y (s.registers Register.Y.idx), 0⟩, s)
  else if c = 0x05 then -- Z
    (⟨Value.register Register.Z (s.registers Register.Z.idx), 0⟩, s)
  else if c = 0x06 then -- I
    (⟨Value.register Register.I (s.registers Register.I.idx), 0⟩, s)
  else if c = 0x07 then -- J
    (⟨Value.register Register.J (s.registers Register.J.idx), 0⟩, s)
  else if c = 0x08 then -- [A]
    let address := s.registers Register.A.idx
    (⟨Value.memory address (s.get_memory address), 0⟩, s)
  else if c = 0x09 then -- [B] in the comment; the body reads register A
    let address := s.registers Register.A.idx
    (⟨Value.memory address (s.get_memory address), 0⟩, s)
  else if c = 0x0A then -- [C]
    let address := s.registers Register.C.idx
    (⟨Value.memory address (s.get_memory address), 0⟩, s)
  else if c = 0x0B then -- [X]
    let address := s.registers Register.X.idx
    (⟨Value.memory address (s.get_memory address), 0⟩, s)
  else if c = 0x0C then -- [Y]
    let address := s.registers Register.Y.idx
    (⟨Value.memory address (s.get_memory address), 0⟩, s)
  else if c = 0x0D then -- [Z]
    let address := s.registers Register.Z.idx
    (⟨Value.memory address (s.get_memory address), 0⟩, s)
  else if c = 0x0E then -- [I]
    let address := s.registers Register.I.idx
    (⟨Value.memory address (s.get_memory address), 0⟩, s)
  else if c = 0x0F then -- [J]
    let address := s.registers Register.J.idx
    (⟨Value.memory address (s.get_memory address), 0⟩, s)
  else if c = 0x10 then -- [A + NEXT]
    let base := s.registers Register.A.idx
    let next := s.registers Register.PC.idx
    let offset := s.get_memory next
    let address := (base + offset) % 65536
    let value := s.get_memory address
    (⟨Value.memory address value, 1⟩,
      s.set_register Register.PC.idx ((next + 1) % 65536))
  else if c = 0x11 then -- [B + NEXT]
    let base := s.registers Register.B.idx
    let next := s.registers Register.PC.idx
    let offset := s.get_memory next
    let address := (base + offset) % 65536
    let value := s.get_memory address
    (⟨Value.memory address value, 1⟩,
      s.set_register Register.PC.idx ((next + 1) % 65536))
  else if c = 0x12 then -- [C + NEXT]
    let base := s.registers Register.C.idx
    let next := s.registers Register.PC.idx
    let offset := s.get_memory next
    let address := (base + offset) % 65536
    let value := s.get_memory address
    (⟨Value.memory address value, 1⟩,
      s.set_register Register.PC.idx ((next + 1) % 65536))
  else if c = 0x13 then -- [X + NEXT]
    let base := s.registers Register.X.idx
    let next := s.registers Register.PC.idx
    let offset := s.get_memory next
    let address := (base + offset) % 65536
    let value := s.get_memory address
    (⟨Value.memory address value, 1⟩,
      s.set_register Register.PC.idx ((next + 1) % 65536))
  else if c = 0x14 then -- [Y + NEXT]
    let base := s.registers Register.Y.idx
    let next := s.registers Register.PC.idx
    let offset := s.get_memory next
    let address := (base + offset) % 65536
    let value := s.get_memory address
    (⟨Value.memory address value, 1⟩,
      s.set_register Register.PC.idx ((next + 1) % 65536))
  else if c = 0x15 then -- [Z + NEXT]
    let base := s.registers Register.Z.idx
    let next := s.registers Register.PC.idx
    let offset := s.get_memory next
    let address := (base + offset) % 65536
    let value := s.get_memory address
    (⟨Value.memory address value, 1⟩,
      s.set_register Register.PC.idx ((next + 1) % 65536))
  else if c = 0x16 then -- [I + NEXT]
    let base := s.registers Register.I.idx
    let next := s.registers Register.PC.idx
    let offset := s.get_memory next
    let address := (base + offset) % 65536
    let value := s.get_memory address
    (⟨Value.memory address value, 1⟩,
      s.set_register Register.PC.idx ((next + 1) % 65536))
  else if c = 0x17 then -- [J + NEXT]
    let base := s.registers Register.J.idx
    let next := s.registers Register.PC.idx
    let offset := s.get_memory next
    let address := (base + offset) % 65536
    let value := s.get_memory address
    (⟨Value.memory address value, 1⟩,
      s.set_register Register.PC.idx ((next + 1) % 65536))
  else if c = 0x18 then -- Stack Pop [SP++] (left only)
    let address := s.registers Register.SP.idx
    let value := s.get_memory address
    (⟨Value.memory address value, 0⟩,
      s.set_register Register.SP.idx ((address + 1) % 65536))
  else if c = 0x19 then -- Stack Peek [SP]
    let address := s.registers Register.SP.idx
    (⟨Value.memory address (s.get_memory address), 0⟩, s)
  else if c = 0x1A then -- Stack Pick [SP + NEXT]
    let base := s.registers Register.SP.idx
    let next := s.registers Register.PC.idx
    let offset := s.get_memory next
    let address := (base + offset) % 65536
    let value := s.get_memory address
    (⟨Value.memory address value, 1⟩,
      s.set_register Register.PC.idx ((next + 1) % 65536))
  else if c = 0x1B then -- SP
    (⟨Value.register Register.SP (s.registers Register.SP.idx), 0⟩, s)
  else if c = 0x1C then -- PC
    (⟨Value.register Register.PC (s.registers Register.PC.idx), 0⟩, s)
  else if c = 0x1D then -- EX
    (⟨Value.register Register.EX (s.registers Register.EX.idx), 0⟩, s)
  else if c = 0x1E then -- [NEXT]
    let next := s.registers Register.PC.idx
    let address := s.get_memory next
    let value := s.get_memory address
    (⟨Value.memory address value, 1⟩,
      s.set_register Register.PC.idx ((next + 1) % 65536))
  else if c = 0x1F then -- NEXT (literal); the source does not increment PC here
    let next := s.registers Register.PC.idx
    let value := s.get_memory next
    (⟨Value.literal value, 1⟩, s)
  else if c = 0x20 then (⟨Value.literal 0xFFFF, 0⟩, s)
  else if c = 0x21 then (⟨Value.literal 0, 0⟩, s)
  else if c = 0x22 then (⟨Value.literal 1, 0⟩, s)
  else if c = 0x23 then (⟨Value.literal 2, 0⟩, s)
  else if c = 0x24 then (⟨Value.literal 3, 0⟩, s)
  else if c = 0x25 then (⟨Value.literal 4, 0⟩, s)
  else if c = 0x26 then (⟨Value.literal 5, 0⟩, s)
  else if c = 0x27 then (⟨Value.literal 6, 0⟩, s)
  else if c = 0x28 then (⟨Value.literal 7, 0⟩, s)
  else if c = 0x29 then (⟨Value.literal 8, 0⟩, s)
  else if c = 0x2A then (⟨Value.literal 9, 0⟩, s)
  else if c = 0x2B then (⟨Value.literal 10, 0⟩, s)
  else if c = 0x2C then (⟨Value.literal 11, 0⟩, s)
  else if c = 0x2D then (⟨Value.literal 12, 0⟩, s)
  else if c = 0x2E then (⟨Value.literal 13, 0⟩, s)
  else if c = 0x2F then (⟨Value.literal 14, 0⟩, s)
  else if c = 0x30 then (⟨Value.literal 15, 0⟩, s)
  else if c = 0x31 then (⟨Value.literal 16, 0⟩, s)
  else if c = 0x32 then (⟨Value.literal 17, 0⟩, s)
  else if c = 0x33 then (⟨Value.literal 18, 0⟩, s)
  else if c = 0x34 then (⟨Value.literal 19, 0⟩, s)
  else if c = 0x35 then (⟨Value.literal 20, 0⟩, s)
  else if c = 0x36 then (⟨Value.literal 21, 0⟩, s)
  else if c = 0x37 then (⟨Value.literal 22, 0⟩, s)
  else if c = 0x38 then (⟨Value.literal 23, 0⟩, s)
  else if c = 0x39 then (⟨Value.literal 24, 0⟩, s)
  else if c = 0x3A then (⟨Value.literal 25, 0⟩, s)
  else if c = 0x3B then (⟨Value.literal 26, 0⟩, s)
  else if c = 0x3C then (⟨Value.literal 27, 0⟩, s)
  else if c = 0x3D then (⟨Value.literal 28, 0⟩, s)
  else if c = 0x3E then (⟨Value.literal 29, 0⟩, s)
  else if c = 0x3F then (⟨Value.literal 30, 0⟩, s)
  else (⟨Value.none, 0⟩, s)

/-- `VCPU16::decode_right`: decode the 5-bit right (b) operand field,
arm by arm from the source.  Code `0x18` is Stack Push `[--SP]`: SP is
decremented, then the new SP is the address.  As on the left side, the
`0x09` arm reads register A and the `0x1F` arm does not increment PC. -/
def VCPU16.decode_right (s : VCPU16) (instruction_word : Nat) :
    Decoded Value × VCPU16 :=
  let c := fieldB instruction_word
  if c = 0x00 then -- A
    (⟨Value.register Register.A (s.registers Register.A.idx), 0⟩, s)
  else if c = 0x01 then -- B
    (⟨Value.register Register.B (s.registers Register.B.idx), 0⟩, s)
  else if c = 0x02 then -- C
    (⟨Value.register Register.C (s.registers Register.C.idx), 0⟩, s)
  else if c = 0x03 then -- X
    (⟨Value.register Register.X (s.registers Register.X.idx), 0⟩, s)
  else if c = 0x04 then -- Y
    (⟨Value.register Register.Y (s.registers Register.Y.idx), 0⟩, s)
  else if c = 0x05 then -- Z
    (⟨Value.register Register.Z (s.registers Register.Z.idx), 0⟩, s)
  else if c = 0x06 then -- I
    (⟨Value.register Register.I (s.registers Register.I.idx), 0⟩, s)
  else if c = 0x07 then -- J
    (⟨Value.register Register.J (s.registers Register.J.idx), 0⟩, s)
  else if c = 0x08 then -- [A]
    let address := s.registers Register.A.idx
    (⟨Value.memory address (s.get_memory address), 0⟩, s)
  else if c = 0x09 then -- [B] in the comment; the body reads register A
    let address := s.registers Register.A.idx
    (⟨Value.memory address (s.get_memory address), 0⟩, s)
  else if c = 0x0A then -- [C]
    let address := s.registers Register.C.idx
    (⟨Value.memory address (s.get_memory address), 0⟩, s)
  else if c = 0x0B then -- [X]
    let address := s.registers Register.X.idx
    (⟨Value.memory address (s.get_memory address), 0⟩, s)
  else if c = 0x0C then -- [Y]
    let address := s.registers Register.Y.idx
    (⟨Value.memory address (s.get_memory address), 0⟩, s)
  else if c = 0x0D then -- [Z]
    let address := s.registers Register.Z.idx
    (⟨Value.memory address (s.get_memory address), 0⟩, s)
  else if c = 0x0E then -- [I]
    let address := s.registers Register.I.idx
    (⟨Value.memory address (s.get_memory address), 0⟩, s)
  else if c = 0x0F then -- [J]
    let address := s.registers Register.J.idx
    (⟨Value.memory address (s.get_memory address), 0⟩, s)
  else if c = 0x10 then -- [A + NEXT]
    let base := s.registers Register.A.idx
    let next := s.registers Register.PC.idx
    let offset := s.get_memory next
    let address := (base + offset) % 65536
    let value := s.get_memory address
    (⟨Value.memory address value, 1⟩,
      s.set_register Register.PC.idx ((next + 1) % 65536))
  else if c = 0x11 then -- [B + NEXT]
    let base := s.registers Register.B.idx
    let next := s.registers Register.PC.idx
    let offset := s.get_memory next
    let address := (base + offset) % 65536
    let value := s.get_memory address
    (⟨Value.memory address value, 1⟩,
      s.set_register Register.PC.idx ((next + 1) % 65536))
  else if c = 0x12 then -- [C + NEXT]
    let base := s.registers Register.C.idx
    let next := s.registers Register.PC.idx
    let offset := s.get_memory next
    let address := (base + offset) % 65536
    let value := s.get_memory address
    (⟨Value.memory address value, 1⟩,
      s.set_register Register.PC.idx ((next + 1) % 65536))
  else if c = 0x13 then -- [X + NEXT]
    let base := s.registers Register.X.idx
    let next := s.registers Register.PC.idx
    let offset := s.get_memory next
    let address := (base + offset) % 65536
    let value := s.get_memory address
    (⟨Value.memory address value, 1⟩,
      s.set_register Register.PC.idx ((next + 1) % 65536))
  else if c = 0x14 then -- [Y + NEXT]
    let base := s.registers Register.Y.idx
    let next := s.registers Register.PC.idx
    let offset := s.get_memory next
    let address := (base + offset) % 65536
    let value := s.get_memory address
    (⟨Value.memory address value, 1⟩,
      s.set_register Register.PC.idx ((next + 1) % 65536))
  else if c = 0x15 then -- [Z + NEXT]
    let base := s.registers Register.Z.idx
    let next := s.registers Register.PC.idx
    let offset := s.get_memory next
    let address := (base + offset) % 65536
    let value := s.get_memory address
    (⟨Value.memory address value, 1⟩,
      s.set_register Register.PC.idx ((next + 1) % 65536))
  else if c = 0x16 then -- [I + NEXT]
    let base := s.registers Register.I.idx
    let next := s.registers Register.PC.idx
    let offset := s.get_memory next
    let address := (base + offset) % 65536
    let value := s.get_memory address
    (⟨Value.memory address value, 1⟩,
      s.set_register Register.PC.idx ((next + 1) % 65536))
  else if c = 0x17 then -- [J + NEXT]
    let base := s.registers Register.J.idx
    let next := s.registers Register.PC.idx
    let offset := s.get_memory next
    let address := (base + offset) % 65536
    let value := s.get_memory address
    (⟨Value.memory address value, 1⟩,
      s.set_register Register.PC.idx ((next + 1) % 65536))
  else if c = 0x18 then -- Stack Push [--SP] (right only)
    let s1 := s.set_register Register.SP.idx
      ((s.registers Register.SP.idx + 65535) % 65536)
    let address := s1.registers Register.SP.idx
    let value := s1.get_memory address
    (⟨Value.memory address value, 0⟩, s1)
  else if c = 0x19 then -- Stack Peek [SP]
    let address := s.registers Register.SP.idx
    (⟨Value.memory address (s.get_memory address), 0⟩, s)
  else if c = 0x1A then -- Stack Pick [SP + NEXT]
    let base := s.registers Register.SP.idx
    let next := s.registers Register.PC.idx
    let offset := s.get_memory next
    let address := (base + offset) % 65536
    let value := s.get_memory address
    (⟨Value.memory address value, 1⟩,
      s.set_register Register.PC.idx ((next + 1) % 65536))
  else if c = 0x1B then -- SP
    (⟨Value.register Register.SP (s.registers Register.SP.idx), 0⟩, s)
  else if c = 0x1C then -- PC
    (⟨Value.register Register.PC (s.registers Register.PC.idx), 0⟩, s)
  else if c = 0x1D then -- EX
    (⟨Value.register Register.EX (s.registers Register.EX.idx), 0⟩, s)
  else if c = 0x1E then -- [NEXT]
    let next := s.registers Register.PC.idx
    let address := s.get_memory next
    let value := s.get_memory address
    (⟨Value.memory address value, 1⟩,
      s.set_register Register.PC.idx ((next + 1) % 65536))
  else if c = 0x1F then -- NEXT (literal); the source does not increment PC here
    let next := s.registers Register.PC.idx
    let value := s.get_memory next
    (⟨Value.literal value, 1⟩, s)
  else (⟨Value.none, 0⟩, s)

/-- `VCPU16::decode_nullary`: `0x00` is NOP, `0x01` is HIB, all other
six-bit codes are ERR. -/
def VCPU16.decode_nullary (s : VCPU16) (instruction_word : Nat) :
    Decoded Instruction × VCPU16 :=
  let c := fieldA instruction_word
  if c = 0x00 then (⟨Instruction.NOP, 0⟩, s)
  else if c = 0x01 then (⟨Instruction.HIB, 0⟩, s)
  else (⟨Instruction.ERR, 0⟩, s)

/-- `VCPU16::decode_unary`: decode the operand with `decode_left`,
then select the instruction by the b-field.  The source has no arm for
`0x02` (SLP), so that code decodes to ERR. -/
def VCPU16.decode_unary (s : VCPU16) (instruction_word : Nat) :
    Decoded Instruction × VCPU16 :=
  let dl := s.decode_left instruction_word
  let left := dl.1.result
  let ltime := dl.1.time
  let s1 := dl.2
  let c := fieldB instruction_word
  if c = 0x01 then (⟨Instruction.JSR left, 3 + ltime⟩, s1)
  else if c = 0x08 then (⟨Instruction.INT left, 4 + ltime⟩, s1)
  else if c = 0x09 then (⟨Instruction.IAG left, 1 + ltime⟩, s1)
  else if c = 0x0A then (⟨Instruction.IAS left, 1 + ltime⟩, s1)
  else if c = 0x0B then (⟨Instruction.RFI left, 3 + ltime⟩, s1)
  else if c = 0x0C then (⟨Instruction.IAQ left, 2 + ltime⟩, s1)
  else if c = 0x10 then (⟨Instruction.HWN left, 2 + ltime⟩, s1)
  else if c = 0x11 then (⟨Instruction.HWQ left, 4 + ltime⟩, s1)
  else if c = 0x12 then (⟨Instruction.HWI left, 4 + ltime⟩, s1)
  else (⟨Instruction.ERR, 0⟩, s1)

/-- `VCPU16::decode_binary`: the source calls `decode_left` for BOTH
operands (`decode_right` is never called), so `left` and `right` are
both decoded from the 6-bit a-field, and the b-field plays no part in
operand decoding.  The SET arm's cost is written `0 + time` in the
source. -/
def VCPU16.decode_binary (s : VCPU16) (instruction_word : Nat) :
    Decoded Instruction × VCPU16 :=
  let dl := s.decode_left instruction_word
  let left := dl.1.result
  let ltime := dl.1.time
  let dr := dl.2.decode_left instruction_word
  let right := dr.1.result
  let rtime := dr.1.time
  let s2 := dr.2
  let time := ltime + rtime
  let c := opcodeField instruction_word
  if c = 0x01 then (⟨Instruction.SET left right, 0 + time⟩, s2)
  else if c = 0x02 then (⟨Instruction.ADD left right, 2 + time⟩, s2)
  else if c = 0x03 then (⟨Instruction.SUB left right, 2 + time⟩, s2)
  else if c = 0x04 then (⟨Instruction.MUL left right, 2 + time⟩, s2)
  else if c = 0x05 then (⟨Instruction.MLI left right, 2 + time⟩, s2)
  else if c = 0x06 then (⟨Instruction.DIV left right, 3 + time⟩, s2)
  else if c = 0x07 then (⟨Instruction.DVI left right, 3 + time⟩, s2)
  else if c = 0x08 then (⟨Instruction.MOD left right, 3 + time⟩, s2)
  else if c = 0x09 then (⟨Instruction.MDI left right, 3 + time⟩, s2)
  else if c = 0x0A then (⟨Instruction.AND left right, 1 + time⟩, s2)
  else if c = 0x0B then (⟨Instruction.BOR left right, 1 + time⟩, s2)
  else if c = 0x0C then (⟨Instruction.XOR left right, 1 + time⟩, s2)
  else if c = 0x0D then (⟨Instruction.SHR left right, 1 + time⟩, s2)
  else if c = 0x0E then (⟨Instruction.ASR left right, 1 + time⟩, s2)
  else if c = 0x0F then (⟨Instruction.SHL left right, 1 + time⟩, s2)
  else if c = 0x10 then (⟨Instruction.IFB left right, 2 + time⟩, s2)
  else if c = 0x11 then (⟨Instruction.IFC left right, 2 + time⟩, s2)
  else if c = 0x12 then (⟨Instruction.IFE left right, 2 + time⟩, s2)
  else if c = 0x13 then (⟨Instruction.IFN left right, 2 + time⟩, s2)
  else if c = 0x14 then (⟨Instruction.IFG left right, 2 + time⟩, s2)
  else if c = 0x15 then (⟨Instruction.IFA left right, 2 + time⟩, s2)
  else if c = 0x16 then (⟨Instruction.IFL left right, 2 + time⟩, s2)
  else if c = 0x17 then (⟨Instruction.IFU left right, 2 + time⟩, s2)
  else if c = 0x18 then (⟨Instruction.ERR, 1⟩, s2)
  else if c = 0x19 then (⟨Instruction.ERR, 1⟩, s2)
  else if c = 0x1A then (⟨Instruction.ADX left right, 3 + time⟩, s2)
  else if c = 0x1B then (⟨Instruction.SBX left right, 3 + time⟩, s2)
  else if c = 0x1C then (⟨Instruction.ERR, 1⟩, s2)
  else if c = 0x1D then (⟨Instruction.ERR, 1⟩, s2)
  else if c = 0x1E then (⟨Instruction.STI left right, 2 + time⟩, s2)
  else if c = 0x1F then (⟨Instruction.STD left right, 2 + time⟩, s2)
  else (⟨Instruction.ERR, 0⟩, s2)

/-- `VCPU16::decode`: fetch the word at PC, post-increment PC, then
dispatch on the low bits (`& 0x03FF == 0` nullary, `& 0x001F == 0`
unary, otherwise binary). -/
def VCPU16.decode (s : VCPU16) : Decoded Instruction × VCPU16 :=
  let address := s.registers Register.PC.idx
  let instruction_word := s.get_memory address
  let s1 := s.set_register Register.PC.idx ((address + 1) % 65536)
  if instruction_word % 1024 = 0 then s1.decode_nullary instruction_word
  else if instruction_word % 32 = 0 then s1.decode_unary instruction_word
  else s1.decode_binary instruction_word

/-- `VCPU16::execute`: the source matches the instruction with a single
wildcard arm whose body is an empty TODO, so every instruction leaves
the machine unchanged. -/
def VCPU16.execute (s : VCPU16) (instruction : Instruction) : VCPU16 :=
  match instruction with
  | _ => s

/-- `VCPU16::step`: in `Idle`, decode and then execute (the decoded
cycle count is bound and discarded by the source); `Busy`, and
`Hibernating`, and `Halted` do nothing; `Sleeping(time)` becomes
`Sleeping(time - 1)` unconditionally (`u16` wrapping subtraction). -/
def VCPU16.step (s : VCPU16) : VCPU16 :=
  match s.state with
  | State.idle =>
    let d := s.decode
    d.2.execute d.1.result
  | State.busy _ _ => s
  | State.sleeping time =>
    { s with state := State.sleeping ((time + 65535) % 65536) }
  | State.hibernating => s
  | State.halted => s

/-- Reassemble a little-endian byte stream into 16-bit words: word i is
bytes 2i and 2i+1 (dangling final byte dropped).  This is the effect of
`load_memory` filling `[u16; 65536]` from raw bytes. -/
def bytes_to_words : List Nat → List Nat
  | b0 :: b1 :: rest => (b0 + 256 * b1) :: bytes_to_words rest
  | _ => []

/-- Split 16-bit words into a little-endian byte stream: this is the
effect of `save_memory` writing `[u16; 65536]` as raw bytes. -/
def words_to_bytes : List Nat → List Nat
  | [] => []
  | w :: rest => w % 256 :: w / 256 % 256 :: words_to_bytes rest

/-- `VCPU16::load_memory`: `read_exact` on a 131,072-byte view of
memory, `.unwrap()`ed.  When the reader holds at least 131,072 bytes
the first 131,072 fill memory as little-endian words; a shorter reader
makes `read_exact` fail and the `unwrap` panic, modelled as
`Option.none`. -/
def VCPU16.load_memory (s : VCPU16) (bytes : List Nat) : Option VCPU16 :=
  if 131072 ≤ bytes.length then
    Option.some { s with
      memory := fun a => (bytes_to_words (bytes.take 131072)).getD (a % 65536) 0 }
  else Option.none

/-- `VCPU16::save_memory`: write the 65,536 memory words as a
131,072-byte little-endian stream. -/
def VCPU16.save_memory (s : VCPU16) : List Nat :=
  words_to_bytes ((List.range 65536).map fun i => s.memory i)

/-- Machine with SP = 5 and everything else zeroed, used to probe the
b-operand (PUSH) path of binary decoding. -/
def mach_push : VCPU16 :=
  { registers := fun i => if i = 9 then 5 else 0, memory := fun _ => 0,
    state := State.idle }

/-- Machine whose memory holds `SET A, <next-word literal>`:
word 0 is 0x7C01 (a-field 0x1F, b-field 0x00, opcode 0x01), word 1 is
the literal 0x0123. -/
def mach_nextlit : VCPU16 :=
  { registers := fun _ => 0,
    memory := fun a => if a = 0 then 0x7C01 else if a = 1 then 0x0123 else 0,
    state := State.idle }

/-- Machine with SP = 0xFFFF and PC = 0xFFFF, used to probe wrap-around
of the stack and program-counter updates. -/
def mach_wrap : VCPU16 :=
  { registers := fun i => if i = 9 then 65535 else if i = 8 then 65535 else 0,
    memory := fun _ => 3, state := State.idle }

/-- Machine in state `Sleeping(1)`. -/
def mach_sleep : VCPU16 :=
  { registers := fun _ => 0, memory := fun _ => 0, state := State.sleeping 1 }

/-- Machine with register A = 5, used to probe DIV A,0. -/
def mach_div : VCPU16 :=
  { registers := fun i => if i = 0 then 5 else 0, memory := fun _ => 0,
    state := State.idle }

/-- Machine with A = 11, B = 22, memory[11] = 100, memory[22] = 200,
used to probe the `[B]` (field code 0x09) operand row. -/
def mach_indb : VCPU16 :=
  { registers := fun i => if i = 0 then 11 else if i = 1 then 22 else 0,
    memory := fun a => if a = 11 then 100 else if a = 22 then 200 else 0,
    state := State.idle }

/-- Machine whose memory holds `SET A, 1` as word 0x8801 (a-field 0x22,
the small literal 1; b-field 0x00; opcode 0x01), with no NEXT words. -/
def mach_set : VCPU16 :=
  { registers := fun _ => 0,
    memory := fun a => if a = 0 then 0x8801 else 0, state := State.idle }

/-- Reassembling then splitting preserves word count: two bytes per word. -/
theorem bytes_to_words_length :
    ∀ X : List Nat, (bytes_to_words X).length = X.length / 2
  | [] => rfl
  | [_] => by simp [bytes_to_words]
  | b0 :: b1 :: rest => by
    simp only [bytes_to_words, List.length_cons, bytes_to_words_length rest]
    omega

/-- Splitting the words reassembled from an even-length byte stream
yields the original bytes. -/
theorem words_to_bytes_bytes_to_words :
    ∀ X : List Nat, X.length % 2 = 0 → (∀ b ∈ X, b < 256) →
      words_to_bytes (bytes_to_words X) = X
  | [], _, _ => rfl
  | [_], hlen, _ => by simp at hlen
  | b0 :: b1 :: rest, hlen, hb => by
    have h0 : b0 < 256 := hb b0 (by simp)
    have h1 : b1 < 256 := hb b1 (by simp)
    have hlen2 : rest.length % 2 = 0 := by
      simp only [List.length_cons] at hlen
      omega
    have ih := words_to_bytes_bytes_to_words rest hlen2
      (fun b hbm => hb b (by simp [hbm]))
    simp only [bytes_to_words, words_to_bytes, ih, List.cons.injEq, and_true]
    exact ⟨by omega, by omega⟩

/-- Reading a list back out of its own `getD` view is the identity. -/
theorem map_getD_range :
    ∀ L : List Nat, (List.range L.length).map (fun i => L.getD i 0) = L
  | [] => rfl
  | a :: l => by
    rw [List.length_cons, List.range_succ_eq_map]
    simp only [List.map_cons, List.map_map, List.getD_cons_zero, Function.comp]
    congr 1
    calc (List.range l.length).map (fun i => (a :: l).getD (i + 1) 0)
        = (List.range l.length).map (fun i => l.getD i 0) := by
          apply List.map_congr_left
          intro i _
          simp [List.getD_cons_succ]
      _ = l := map_getD_range l

/-- Claim C1: `VCPU16::execute` leaves every register, every memory
word, and the execution state unchanged for every decoded instruction,
so a `step` taken from the `Idle` state changes the machine exactly as
operand decoding does and in no other way. -/
theorem execute_is_noop_and_step_only_decodes (s : VCPU16) (i : Instruction)
    (h : s.state = State.idle) :
    s.execute i = s ∧ s.step = (s.decode).2 := by
  refine ⟨rfl, ?_⟩
  unfold VCPU16.step
  rw [h]
  rfl

/-- Witness for C1 at the freshly constructed machine and NOP. -/
theorem execute_is_noop_and_step_only_decodes_witness :
    VCPU16.new.state = State.idle ∧
      (VCPU16.new.execute Instruction.NOP = VCPU16.new ∧
        VCPU16.new.step = (VCPU16.new.decode).2) :=
  ⟨rfl, execute_is_noop_and_step_only_decodes VCPU16.new Instruction.NOP rfl⟩

/-- Claim C2 (refuted on the code): for the instruction word 0x0301
(opcode SET, b-field 0x18 = PUSH, a-field 0x00 = register A) decoded at
SP = 5, `decode_binary` leaves SP at 5 and decodes BOTH operands from
the a-field, because the source calls `decode_left` twice and never
`decode_right`; the b-field plays no part, as the identical result for
b-field 0x01 shows.  The claim instead requires SP ← 4 and a
destination operand decoded from the b-field. -/
theorem binary_decode_ignores_b_field :
    ((mach_push.decode_binary 0x0301).2).registers Register.SP.idx = 5 ∧
    (mach_push.decode_binary 0x0301).1.result
      = Instruction.SET (Value.register Register.A 0)
          (Value.register Register.A 0) ∧
    (mach_push.decode_binary 0x0301).1.result
      = (mach_push.decode_binary 0x0021).1.result := by
  refine ⟨by decide, by decide, by decide⟩

/-- Claim C3 (refuted on the code): decoding `SET A, <next-word
literal>` (memory[0] = 0x7C01, memory[1] = 0x0123) from PC = 0 leaves
PC = 1, not 2: the a-field 0x1F arm evaluates `self.registers[PC]`
without incrementing it, so the NEXT word is read but never consumed.
(The operand value is still `Literal(memory[old PC + 1])`.) -/
theorem next_literal_does_not_advance_pc :
    ((mach_nextlit.decode).2).registers Register.PC.idx = 1 ∧
    (mach_nextlit.decode).1.result
      = Instruction.SET (Value.literal 0x0123) (Value.literal 0x0123) := by
  refine ⟨by decide, by decide⟩

/-- Claim C4: every PC/SP update during decoding wraps modulo 2^16
(`u16` wrapping arithmetic), and the effective address of a
`memory[register + NEXT]` operand is `(register + NEXT) mod 2^16`:
POP (a-field 0x18) sets SP to `(SP + 1) mod 2^16`, PUSH (b-field 0x18)
sets SP to `(SP − 1) mod 2^16`, and the `[A + NEXT]` row (a-field
0x10) addresses `(A + memory[PC]) mod 2^16` while setting PC to
`(PC + 1) mod 2^16`.  All decode functions are total: no decode path
aborts. -/
theorem decode_pointer_arith_wraps (s : VCPU16) (w : Nat) :
    (fieldA w = 0x18 →
      ((s.decode_left w).2).registers Register.SP.idx
        = (s.registers Register.SP.idx + 1) % 65536) ∧
    (fieldB w = 0x18 →
      ((s.decode_right w).2).registers Register.SP.idx
        = (s.registers Register.SP.idx + 65535) % 65536) ∧
    (fieldA w = 0x10 →
      (s.decode_left w).1.result
        = Value.memory
            ((s.registers Register.A.idx
              + s.get_memory (s.registers Register.PC.idx)) % 65536)
            (s.get_memory ((s.registers Register.A.idx
              + s.get_memory (s.registers Register.PC.idx)) % 65536)) ∧
      ((s.decode_left w).2).registers Register.PC.idx
        = (s.registers Register.PC.idx + 1) % 65536) := by
  refine ⟨?_, ?_, ?_⟩
  · intro h
    simp [VCPU16.decode_left, h, VCPU16.set_register, Register.idx]
  · intro h
    simp [VCPU16.decode_right, h, VCPU16.set_register, Register.idx]
  · intro h
    simp [VCPU16.decode_left, h, VCPU16.set_register, Register.idx]

/-- Witness for C4 at SP = PC = 0xFFFF: POP wraps SP to 0, PUSH wraps
SP = 0xFFFF to 0xFFFE, and the `[A + NEXT]` PC increment wraps
0xFFFF to 0. -/
theorem decode_pointer_arith_wraps_witness :
    ((mach_wrap.decode_left 0x6000).2).registers Register.SP.idx = 0 ∧
    ((mach_wrap.decode_right 0x0300).2).registers Register.SP.idx = 65534 ∧
    ((mach_wrap.decode_left 0x4000).2).registers Register.PC.idx = 0 := by
  refine ⟨?_, ?_, ?_⟩
  · have h := (decode_pointer_arith_wraps mach_wrap 0x6000).1 (by decide)
    simpa [mach_wrap, Register.idx] using h
  · have h := (decode_pointer_arith_wraps mach_wrap 0x0300).2.1 (by decide)
    simpa [mach_wrap, Register.idx] using h
  · have h := ((decode_pointer_arith_wraps mach_wrap 0x4000).2.2 (by decide)).2
    simpa [mach_wrap, Register.idx] using h

/-- Claim C5 (refuted on the code): a step taken in `Sleeping(1)`
yields `Sleeping(0)`, not the ready state: the scheduler decrements
the sleep counter unconditionally and has no arm that returns to
`Idle`, so a sleeping machine never wakes. -/
theorem sleeping_tick_never_wakes :
    (mach_sleep.step).state = State.sleeping 0 ∧
    (mach_sleep.step).state ≠ State.idle := by
  refine ⟨by decide, by decide⟩

/-- Claim C6 (refuted on the code): executing `DIV A, 0` with A = 5
leaves A = 5 — indeed it leaves the whole machine untouched — because
`execute` matches every instruction with an empty TODO arm; the claim
instead requires A ← 0 and EX ← 0. -/
theorem div_by_zero_unexecuted :
    mach_div.execute
        (Instruction.DIV (Value.register Register.A 5) (Value.literal 0))
      = mach_div ∧
    (mach_div.execute
        (Instruction.DIV (Value.register Register.A 5) (Value.literal 0))
      ).registers Register.A.idx = 5 :=
  ⟨rfl, rfl⟩

/-- Claim C7 (refuted on the code): with A = 11, B = 22,
memory[11] = 100 and memory[22] = 200, operand field code 0x09 (the
`[B]` row) decodes — on both the 6-bit and the 5-bit side — to the
memory operand at address 11 with value 100: the source's 0x09 arms
read `registers[Register::A]`.  The claim instead requires address 22
and value 200. -/
theorem operand_0x09_reads_register_A :
    (mach_indb.decode_left 0x2400).1.result = Value.memory 11 100 ∧
    (mach_indb.decode_right 0x0120).1.result = Value.memory 11 100 := by
  refine ⟨by decide, by decide⟩

/-- Claim C8: loading a 131,072-byte image into memory and saving the
memory back reproduces the image exactly (`save_image ∘ load_image` is
the identity on 131,072-byte images). -/
theorem save_load_roundtrip (s : VCPU16) (X : List Nat)
    (h1 : X.length = 131072) (h2 : ∀ b ∈ X, b < 256) :
    (s.load_memory X).map VCPU16.save_memory = Option.some X := by
  unfold VCPU16.load_memory
  rw [if_pos (by omega)]
  have htake : X.take 131072 = X := List.take_of_length_le (by omega)
  simp only [Option.map_some', VCPU16.save_memory, htake, Option.some.injEq]
  have hlen2 : (bytes_to_words X).length = 65536 := by
    rw [bytes_to_words_length, h1]
  have hmap : (List.range 65536).map
        (fun i => (bytes_to_words X).getD (i % 65536) 0)
      = (List.range 65536).map (fun i => (bytes_to_words X).getD i 0) := by
    apply List.map_congr_left
    intro i hi
    rw [Nat.mod_eq_of_lt (List.mem_range.mp hi)]
  rw [hmap, ← hlen2, map_getD_range]
  exact words_to_bytes_bytes_to_words X (by omega) h2

/-- Witness for C8 at the all-zero 131,072-byte image. -/
theorem save_load_roundtrip_witness :
    (VCPU16.new.load_memory (List.replicate 131072 0)).map VCPU16.save_memory
      = Option.some (List.replicate 131072 0) :=
  save_load_roundtrip VCPU16.new (List.replicate 131072 0)
    (List.length_replicate ..)
    (by intro b hb; have := List.eq_of_mem_replicate hb; omega)

/-- Claim C9 (refuted on the code): a reader yielding fewer than
131,072 bytes makes `load_memory` panic — the source unwraps the
`read_exact` result, modelled here as `Option.none` — rather than
surfacing a recoverable ImageError. -/
theorem load_memory_short_input_panics (s : VCPU16) (bytes : List Nat)
    (h : bytes.length < 131072) :
    s.load_memory bytes = Option.none := by
  unfold VCPU16.load_memory
  rw [if_neg (by omega)]

/-- Witness for C9 at the empty reader. -/
theorem load_memory_short_input_panics_witness :
    ([] : List Nat).length < 131072 ∧
      VCPU16.new.load_memory [] = Option.none :=
  ⟨by decide, load_memory_short_input_panics VCPU16.new [] (by decide)⟩

/-- Claim C10 (refuted on the code): decoding `SET A, 1` (word 0x8801,
a small-literal operand and no NEXT words) yields cycle cost 0, not
the base cost 1 the claim requires: the SET arm of `decode_binary`
charges `0 + time` even though the source's own opcode table lists
cost 1 for SET. -/
theorem set_decode_base_cost_zero :
    (mach_set.decode).1.result
      = Instruction.SET (Value.literal 1) (Value.literal 1) ∧
    (mach_set.decode).1.time = 0 := by
  refine ⟨by decide, by decide⟩
